import Mathlib

/-!
Verification of the notification dispatch and preference-evaluation subsystem
of the Mergington High School activity-registration API.

The definitions below are a shallow embedding of the Python sources:
  * `src/email_preferences.py` — preference data model, in-memory store,
    preference evaluation (`should_send_email`), CC resolution
    (`get_parent_email`), CRUD (`get/update/delete/get_all`).
  * `src/email_service.py`    — `EmailService.send_email` delivery worker.
  * `src/celery_tasks.py`     — the background dispatch tasks.
  * `src/app.py`              — the batch-announcement HTTP endpoint.

The process-wide mutable dictionary `user_preferences` is embedded as an
explicit association list threaded through every operation in state-passing
style.  Effects on the outside world (template rendering, the SMTP
transport, the task-queue channel) are embedded as explicit oracle
functions and as lists of recorded submissions, so that "the channel was
never contacted" is the proposition "the recorded submission list is empty".
-/

/-- Embedding of the `EmailFrequency` enum of `email_preferences.py`. -/
inductive EmailFrequency where
  | immediate
  | daily_digest
  | weekly_digest
  | disabled
deriving DecidableEq, Repr

/-- Embedding of the `NotificationCategory` enum of `email_preferences.py`. -/
inductive NotificationCategory where
  | signup_confirmation
  | unregister_confirmation
  | activity_changes
  | reminders
  | weekly_digest
  | new_activities
  | attendance
deriving DecidableEq, Repr

/-- Embedding of the pydantic model `EmailPreferences`; the field defaults
are exactly the pydantic field defaults.  `parent_email = some s` stands for
a present `EmailStr`; pydantic validation guarantees such a string is a
well-formed (in particular non-empty) email address. -/
structure EmailPreferences where
  email : String
  enabled : Bool := true
  frequency : EmailFrequency := .immediate
  signup_confirmation : Bool := true
  unregister_confirmation : Bool := true
  activity_changes : Bool := true
  reminders : Bool := true
  weekly_digest : Bool := true
  new_activities : Bool := true
  attendance : Bool := true
  parent_email : Option String := none
  parent_cc_enabled : Bool := false
  digest_only : Bool := false
deriving DecidableEq, Repr

/-- The record produced by `EmailPreferences(email=email)`: every other
field takes its pydantic default. -/
def defaultPrefs (email : String) : EmailPreferences := { email := email }

/-- The module-level dictionary `user_preferences: Dict[str, EmailPreferences]`,
embedded as an association list with unique keys (dict semantics). -/
abbrev Store := List (String × EmailPreferences)

/-- Dictionary key lookup: `user_preferences[email]` / `email in user_preferences`. -/
def lookupPref : Store → String → Option EmailPreferences
  | [], _ => none
  | (k, v) :: rest, e => if k = e then some v else lookupPref rest e

/-- Dictionary key assignment `user_preferences[email] = p`: replaces the
binding in place when the key is present, otherwise appends it. -/
def insertPref : Store → String → EmailPreferences → Store
  | [], e, p => [(e, p)]
  | (k, v) :: rest, e, p =>
    if k = e then (k, p) :: rest else (k, v) :: insertPref rest e p

/-- Dictionary key deletion `del user_preferences[email]`: removes the
binding for the key (on a dict-representable store there is at most one). -/
def erasePref : Store → String → Store
  | [], _ => []
  | (k, v) :: rest, e =>
    if k = e then erasePref rest e else (k, v) :: erasePref rest e

/-- Embedding of `get_user_preferences`: read the record, lazily creating
and storing the all-defaults record on a miss. -/
def get_user_preferences (email : String) (st : Store) :
    EmailPreferences × Store :=
  match lookupPref st email with
  | some p => (p, st)
  | none => (defaultPrefs email, insertPref st email (defaultPrefs email))

/-- The preferences record a read of `email` observes: the stored record,
or the freshly materialized defaults. -/
def fetchedPrefs (email : String) (st : Store) : EmailPreferences :=
  (get_user_preferences email st).1

/-- Embedding of `update_user_preferences`: wholesale replacement of the
record. -/
def update_user_preferences (email : String) (preferences : EmailPreferences)
    (st : Store) : EmailPreferences × Store :=
  (preferences, insertPref st email preferences)

/-- The `category_map` dictionary of `should_send_email`, as an exhaustive
match: every category is a key of the dictionary, so the `.get(category,
True)` default branch is unreachable. -/
def categoryFlag (p : EmailPreferences) : NotificationCategory → Bool
  | .signup_confirmation => p.signup_confirmation
  | .unregister_confirmation => p.unregister_confirmation
  | .activity_changes => p.activity_changes
  | .reminders => p.reminders
  | .weekly_digest => p.weekly_digest
  | .new_activities => p.new_activities
  | .attendance => p.attendance

/-- Embedding of `should_send_email`: global kill switch, digest-only mode,
then the per-category flag.  The store is threaded because the initial
`get_user_preferences` may lazily create a record. -/
def should_send_email (email : String) (category : NotificationCategory)
    (st : Store) : Bool × Store :=
  let pr := get_user_preferences email st
  if pr.1.enabled = false ∨ pr.1.frequency = .disabled then (false, pr.2)
  else if pr.1.digest_only = true ∧ category ≠ .weekly_digest then (false, pr.2)
  else (categoryFlag pr.1 category, pr.2)

/-- Python truthiness of an `Optional[EmailStr]` value: `None` is falsy and
a string is truthy exactly when non-empty. -/
def pyTruthy : Option String → Bool
  | none => false
  | some s => !s.isEmpty

/-- Embedding of `get_parent_email`: the parent address iff CC is enabled
and a (truthy) parent address is set. -/
def get_parent_email (email : String) (st : Store) :
    Option String × Store :=
  let pr := get_user_preferences email st
  if pr.1.parent_cc_enabled = true ∧ pyTruthy pr.1.parent_email = true then
    (pr.1.parent_email, pr.2)
  else (none, pr.2)

/-- Embedding of `get_all_preferences`: returns the whole store. -/
def get_all_preferences (st : Store) : Store := st

/-- Embedding of `delete_user_preferences`: delete the record if present,
reporting whether anything was deleted. -/
def delete_user_preferences (email : String) (st : Store) : Bool × Store :=
  if (lookupPref st email).isSome then (true, erasePref st email)
  else (false, st)

/-- A transient notification request: the arguments a dispatch task hands
to `EmailService.send_email`. -/
structure NotificationRequest where
  recipients : List String
  cc : Option (List String)
  subject : String
  template_name : String
  context : List (String × Option String)
deriving DecidableEq, Repr

/-- An observable interaction of `EmailService.send_email` with its
external collaborators. -/
inductive MailAction where
  | renderAttempt
  | deliverAttempt
deriving DecidableEq, Repr

/-- The environment of `EmailService.send_email`: whether credentials are
configured (`is_email_enabled`), the template renderer, and the mail
transport.  `Except.error` stands for a raised exception. -/
structure MailEnv where
  enabled : Bool
  render : String → List (String × Option String) → Except String String
  deliver : List String → Option (List String) → String → String →
    Except String Unit

/-- Dictionary assignment `context[key] = v`: overwrite the key when
present, otherwise append it. -/
def ctxSet (ctx : List (String × Option String)) (key : String)
    (v : Option String) : List (String × Option String) :=
  if ctx.any (fun kv => kv.1 = key) then
    ctx.map (fun kv => if kv.1 = key then (key, v) else kv)
  else ctx ++ [(key, v)]

/-- Embedding of `EmailService.send_email`: short-circuit to `false` when
the transport is unconfigured; otherwise render (injecting the subject into
the context) and deliver, converting any raised exception into `false`.
The second component records which collaborators were contacted. -/
def send_email (env : MailEnv) (recipients : List String)
    (subject template_name : String) (context : List (String × Option String))
    (cc : Option (List String)) : Bool × List MailAction :=
  if env.enabled = false then (false, [])
  else
    match env.render template_name (ctxSet context "subject" (some subject)) with
    | .error _ => (false, [.renderAttempt])
    | .ok html =>
      match env.deliver recipients cc subject html with
      | .error _ => (false, [.renderAttempt, .deliverAttempt])
      | .ok _ => (true, [.renderAttempt, .deliverAttempt])

/-- Submit a `NotificationRequest` to `EmailService.send_email`. -/
def submitRequest (env : MailEnv) (req : NotificationRequest) :
    Bool × List MailAction :=
  send_email env req.recipients req.subject req.template_name req.context req.cc

/-- The value a dispatch task returns: the embedding of the status
dictionaries of `celery_tasks.py`. -/
inductive TaskOutcome where
  | skipped (reason : String)
  | sent
  | failed
  | completed (total sent failed : Nat)
deriving DecidableEq, Repr

/-- Embedding of `send_signup_confirmation_task`: skip on preferences,
otherwise resolve the CC parent, build the signup-confirmation request
(as `EmailService.send_signup_confirmation` does) and submit it.  The third
component records every request submitted to the delivery service. -/
def send_signup_confirmation_task (env : MailEnv)
    (student_email activity_name schedule description : String)
    (student_name : Option String) (st : Store) :
    TaskOutcome × Store × List NotificationRequest :=
  let chk := should_send_email student_email .signup_confirmation st
  if chk.1 = false then (.skipped "user preferences", chk.2, [])
  else
    let pe := get_parent_email student_email chk.2
    let req : NotificationRequest :=
      { recipients := [student_email]
        cc := pe.1.map (fun p => [p])
        subject := "Confirmed: " ++ activity_name ++ " Registration"
        template_name := "signup_confirmation"
        context := [("student_name", student_name),
                    ("activity_name", some activity_name),
                    ("schedule", some schedule),
                    ("description", some description)] }
    let res := submitRequest env req
    (if res.1 then .sent else .failed, pe.2, [req])

/-- The recipient filtering performed by the broadcast tasks: the list
comprehension `[email for email in recipients if should_send_email(email,
category)]`, with the store threaded through the stateful predicate. -/
def filterRecipients (recipients : List String)
    (category : NotificationCategory) (st : Store) : List String × Store :=
  match recipients with
  | [] => ([], st)
  | e :: rest =>
    let b := should_send_email e category st
    let tail := filterRecipients rest category b.2
    if b.1 then (e :: tail.1, tail.2) else tail

/-- Embedding of `send_activity_change_task`: filter the recipients on the
ActivityChanges category, skip when nobody is left, otherwise submit one
request addressed to the filtered set. -/
def send_activity_change_task (env : MailEnv) (recipients : List String)
    (activity_name change_description : String) (new_schedule : Option String)
    (st : Store) : TaskOutcome × Store × List NotificationRequest :=
  let fr := filterRecipients recipients .activity_changes st
  if fr.1 = [] then
    (.skipped "no recipients with enabled preferences", fr.2, [])
  else
    let req : NotificationRequest :=
      { recipients := fr.1
        cc := none
        subject := "Important Update: " ++ activity_name
        template_name := "activity_change"
        context := [("student_name", none),
                    ("activity_name", some activity_name),
                    ("change_description", some change_description),
                    ("new_schedule", new_schedule)] }
    let res := submitRequest env req
    (if res.1 then .sent else .failed, fr.2, [req])

/-- Embedding of `send_new_activity_announcement_task`: filter the
recipients on the NewActivities category, skip when nobody is left,
otherwise submit one announcement request to the filtered set. -/
def send_new_activity_announcement_task (env : MailEnv)
    (recipients : List String) (activity_name schedule description : String)
    (max_participants : Nat) (portal_url : String) (st : Store) :
    TaskOutcome × Store × List NotificationRequest :=
  let fr := filterRecipients recipients .new_activities st
  if fr.1 = [] then
    (.skipped "no recipients with enabled preferences", fr.2, [])
  else
    let req : NotificationRequest :=
      { recipients := fr.1
        cc := none
        subject := "New Activity Available: " ++ activity_name
        template_name := "new_activity"
        context := [("student_name", none),
                    ("activity_name", some activity_name),
                    ("schedule", some schedule),
                    ("description", some description),
                    ("max_participants", some (toString max_participants)),
                    ("portal_url", some portal_url)] }
    let res := submitRequest env req
    (if res.1 then .sent else .failed, fr.2, [req])

/-- The embedding of the HTTP response of `send_batch_announcement`:
an `HTTPException`, the queue-unavailable warning, or the success body. -/
inductive BatchResponse where
  | httpError (status : Nat) (detail : String)
  | queueWarning (recipients_count : Nat)
  | queued (recipients_count : Nat)
deriving DecidableEq, Repr

/-- A `send_batch_emails_task.delay(...)` submission to the task-queue
channel. -/
structure BatchTaskCall where
  recipients : List String
  subject : String
  template_name : String
  context : List (String × Option String)
deriving DecidableEq, Repr

/-- Embedding of the `POST /announcements/batch-email` handler
`send_batch_announcement` of `app.py`: an empty recipient list is rejected
with HTTP 400 before any channel interaction; otherwise the task is handed
to the channel, and a channel failure is swallowed into a warning response.
The second component records every submission to the channel. -/
def send_batch_announcement (channelOk : Bool) (recipients : List String)
    (subject template_name : String) (context : List (String × Option String)) :
    BatchResponse × List BatchTaskCall :=
  if recipients = [] then (.httpError 400 "No recipients specified", [])
  else if channelOk then
    (.queued recipients.length,
     [{ recipients := recipients, subject := subject,
        template_name := template_name, context := context }])
  else (.queueWarning recipients.length, [])

/-- A mail environment whose renderer and transport always succeed; used to
instantiate theorems at concrete inputs. -/
def envW : MailEnv where
  enabled := true
  render := fun _ _ => .ok "content"
  deliver := fun _ _ _ _ => .ok ()

/-- A concrete record that opted out of signup confirmations. -/
def prefsNoSignup : EmailPreferences :=
  { email := "b@x.edu", signup_confirmation := false }

/-- A concrete record with the global kill switch off. -/
def prefsOff : EmailPreferences := { email := "c@x.edu", enabled := false }

/-- A concrete record in digest-only mode. -/
def prefsDigest : EmailPreferences := { email := "d@x.edu", digest_only := true }

/-- A concrete record with parent CC enabled and a parent address set. -/
def prefsParent : EmailPreferences :=
  { email := "e@x.edu", parent_cc_enabled := true,
    parent_email := some "p@x.edu" }

theorem lookupPref_insertPref_self (st : Store) (e : String)
    (p : EmailPreferences) : lookupPref (insertPref st e p) e = some p := by
  induction st with
  | nil => simp [insertPref, lookupPref]
  | cons kv rest ih =>
    obtain ⟨k, v⟩ := kv
    by_cases hk : k = e <;> simp [insertPref, lookupPref, hk, ih]

theorem lookupPref_erasePref_self (st : Store) (e : String) :
    lookupPref (erasePref st e) e = none := by
  induction st with
  | nil => rfl
  | cons kv rest ih =>
    obtain ⟨k, v⟩ := kv
    by_cases hk : k = e <;> simp [erasePref, lookupPref, hk, ih]

theorem mem_keys_of_lookupPref (st : Store) (e : String)
    (p : EmailPreferences) (h : lookupPref st e = some p) :
    e ∈ st.map Prod.fst := by
  induction st with
  | nil => simp [lookupPref] at h
  | cons kv rest ih =>
    obtain ⟨k, v⟩ := kv
    by_cases hk : k = e
    · simp [hk]
    · simp only [lookupPref, hk, if_neg] at h
      simp [ih h]

theorem lookupPref_get_self (email : String) (st : Store) :
    lookupPref (get_user_preferences email st).2 email =
      some (fetchedPrefs email st) := by
  cases hl : lookupPref st email <;>
    simp [get_user_preferences, fetchedPrefs, hl, lookupPref_insertPref_self]

theorem should_send_email_store (email : String)
    (cat : NotificationCategory) (st : Store) :
    (should_send_email email cat st).2 = (get_user_preferences email st).2 := by
  simp only [should_send_email]
  split
  · rfl
  · split <;> rfl

theorem get_parent_email_store (email : String) (st : Store) :
    (get_parent_email email st).2 = (get_user_preferences email st).2 := by
  simp only [get_parent_email]
  split <;> rfl

/-- Claim C2: for every identity never seen before (not present in the
preference store), the first preference read returns and stores a record
with every per-category boolean true, `enabled = true`,
`frequency = Immediate`, `digest_only = false`, `parent_cc_enabled = false`,
and no parent identity. -/
theorem first_read_materializes_defaults (st : Store) (email : String)
    (h : lookupPref st email = none) :
    (get_user_preferences email st).1.enabled = true ∧
    (get_user_preferences email st).1.frequency = .immediate ∧
    (get_user_preferences email st).1.signup_confirmation = true ∧
    (get_user_preferences email st).1.unregister_confirmation = true ∧
    (get_user_preferences email st).1.activity_changes = true ∧
    (get_user_preferences email st).1.reminders = true ∧
    (get_user_preferences email st).1.weekly_digest = true ∧
    (get_user_preferences email st).1.new_activities = true ∧
    (get_user_preferences email st).1.attendance = true ∧
    (get_user_preferences email st).1.digest_only = false ∧
    (get_user_preferences email st).1.parent_cc_enabled = false ∧
    (get_user_preferences email st).1.parent_email = none ∧
    lookupPref (get_user_preferences email st).2 email =
      some ((get_user_preferences email st).1) := by
  simp [get_user_preferences, h, defaultPrefs, lookupPref_insertPref_self]

/-- Witness for C2 at the empty store. -/
theorem first_read_materializes_defaults_witness :
    lookupPref ([] : Store) "a@x.edu" = none ∧
    (get_user_preferences "a@x.edu" ([] : Store)).1.enabled = true :=
  ⟨rfl, (first_read_materializes_defaults ([] : Store) "a@x.edu" rfl).1⟩

/-- Claim C3: `should_send_email` returns false whenever the identity's
preferences have `enabled = false`, and whenever `frequency = Disabled`,
regardless of the category and of any per-category flag. -/
theorem should_send_false_when_disabled (st : Store) (email : String)
    (cat : NotificationCategory)
    (h : (fetchedPrefs email st).enabled = false ∨
      (fetchedPrefs email st).frequency = .disabled) :
    (should_send_email email cat st).1 = false := by
  have h' : (get_user_preferences email st).1.enabled = false ∨
      (get_user_preferences email st).1.frequency = .disabled := h
  simp [should_send_email, h']

/-- Witness for C3 at a store holding a globally disabled record. -/
theorem should_send_false_when_disabled_witness :
    ((fetchedPrefs "c@x.edu" [("c@x.edu", prefsOff)]).enabled = false ∨
      (fetchedPrefs "c@x.edu" [("c@x.edu", prefsOff)]).frequency = .disabled) ∧
    (should_send_email "c@x.edu" .reminders [("c@x.edu", prefsOff)]).1 = false :=
  ⟨Or.inl (by decide),
   should_send_false_when_disabled [("c@x.edu", prefsOff)] "c@x.edu"
     .reminders (Or.inl (by decide))⟩

/-- Claim C4: with `digest_only = true` (and `enabled = true`, frequency not
Disabled), `should_send_email` returns false for every category other than
WeeklyDigest, and the identity's `weekly_digest` flag for WeeklyDigest. -/
theorem should_send_digest_only (st : Store) (email : String)
    (cat : NotificationCategory)
    (h1 : (fetchedPrefs email st).enabled = true)
    (h2 : (fetchedPrefs email st).frequency ≠ .disabled)
    (h3 : (fetchedPrefs email st).digest_only = true) :
    (should_send_email email cat st).1 =
      if cat = .weekly_digest then (fetchedPrefs email st).weekly_digest
      else false := by
  have h1' : (get_user_preferences email st).1.enabled = true := h1
  have h2' : ¬ (get_user_preferences email st).1.frequency = .disabled := h2
  have h3' : (get_user_preferences email st).1.digest_only = true := h3
  by_cases hc : cat = .weekly_digest
  · subst hc
    simp [should_send_email, h1', h2', h3', categoryFlag, fetchedPrefs]
  · simp [should_send_email, h1', h2', h3', hc]

/-- Witness for C4 at a digest-only record and the Reminders category. -/
theorem should_send_digest_only_witness :
    (fetchedPrefs "d@x.edu" [("d@x.edu", prefsDigest)]).enabled = true ∧
    (fetchedPrefs "d@x.edu" [("d@x.edu", prefsDigest)]).frequency ≠ .disabled ∧
    (fetchedPrefs "d@x.edu" [("d@x.edu", prefsDigest)]).digest_only = true ∧
    (should_send_email "d@x.edu" .reminders [("d@x.edu", prefsDigest)]).1 =
      if (NotificationCategory.reminders) = .weekly_digest then
        (fetchedPrefs "d@x.edu" [("d@x.edu", prefsDigest)]).weekly_digest
      else false :=
  ⟨by decide, by decide, by decide,
   should_send_digest_only [("d@x.edu", prefsDigest)] "d@x.edu" .reminders
     (by decide) (by decide) (by decide)⟩

theorem should_send_email_false_of_flag (email : String)
    (cat : NotificationCategory) (st : Store)
    (h : categoryFlag (fetchedPrefs email st) cat = false) :
    (should_send_email email cat st).1 = false := by
  have h' : categoryFlag (get_user_preferences email st).1 cat = false := h
  simp only [should_send_email]
  split
  · rfl
  · split
    · rfl
    · exact h'

/-- Claim C1: an identity whose preferences have
`signup_confirmation = false` gets `skipped "user preferences"` from the
signup-confirmation dispatch task, and no request is submitted to the
delivery channel. -/
theorem signup_confirmation_skipped_on_pref_optout (env : MailEnv)
    (st : Store) (student_email activity_name schedule description : String)
    (student_name : Option String)
    (h : (fetchedPrefs student_email st).signup_confirmation = false) :
    (send_signup_confirmation_task env student_email activity_name schedule
      description student_name st).1 = .skipped "user preferences" ∧
    (send_signup_confirmation_task env student_email activity_name schedule
      description student_name st).2.2 = [] := by
  have hs : (should_send_email student_email .signup_confirmation st).1 =
      false :=
    should_send_email_false_of_flag student_email .signup_confirmation st
      (by simpa [categoryFlag] using h)
  simp [send_signup_confirmation_task, hs]

/-- Witness for C1 at a concrete store holding an opted-out record. -/
theorem signup_confirmation_skipped_on_pref_optout_witness :
    (fetchedPrefs "b@x.edu" [("b@x.edu", prefsNoSignup)]).signup_confirmation
      = false ∧
    (send_signup_confirmation_task envW "b@x.edu" "Chess Club" "Fridays"
      "desc" none [("b@x.edu", prefsNoSignup)]).1 =
      .skipped "user preferences" :=
  ⟨by decide,
   (signup_confirmation_skipped_on_pref_optout envW
     [("b@x.edu", prefsNoSignup)] "b@x.edu" "Chess Club" "Fridays" "desc"
     none (by decide)).1⟩

theorem filterRecipients_sublist_aux (l : List String)
    (cat : NotificationCategory) (st : Store) :
    List.Sublist (filterRecipients l cat st).1 l := by
  induction l generalizing st with
  | nil => simp [filterRecipients]
  | cons e rest ih =>
    simp only [filterRecipients]
    cases hb : (should_send_email e cat st).1 <;> simp [hb]
    · exact List.Sublist.cons e (ih _)
    · exact ih _

/-- Claim C5: the per-identity `should_send_email` filtering applied before
a broadcast dispatch (`send_activity_change_task`,
`send_new_activity_announcement_task`) returns an order-preserving
subsequence of its input, and the empty input yields the empty output. -/
theorem filterRecipients_subsequence (l : List String)
    (cat : NotificationCategory) (st : Store) :
    List.Sublist (filterRecipients l cat st).1 l ∧
    (filterRecipients ([] : List String) cat st).1 = [] :=
  ⟨filterRecipients_sublist_aux l cat st, rfl⟩

/-- Claim C6: `get_parent_email` returns the parent identity exactly when
`parent_cc_enabled = true` and a parent identity is set, and `none` in
every other case.  The hypothesis is the pydantic `EmailStr` invariant: a
stored parent address is never the empty string. -/
theorem get_parent_email_cc_iff (st : Store) (email : String)
    (h : (fetchedPrefs email st).parent_email ≠ some "") :
    (get_parent_email email st).1 =
      if (fetchedPrefs email st).parent_cc_enabled = true then
        (fetchedPrefs email st).parent_email
      else none := by
  have h' : (get_user_preferences email st).1.parent_email ≠ some "" := h
  simp only [get_parent_email, fetchedPrefs]
  by_cases hcc : (get_user_preferences email st).1.parent_cc_enabled = true
  · cases hpe : (get_user_preferences email st).1.parent_email with
    | none => simp [hcc, hpe, pyTruthy]
    | some s =>
      have hs : s ≠ "" := fun he => h' (by rw [hpe, he])
      have hse : s.isEmpty = false := by
        cases hb : s.isEmpty
        · rfl
        · exact absurd ((String.isEmpty_iff s).mp hb) hs
      simp [hcc, hpe, pyTruthy, hse]
  · simp [hcc]

/-- Witness for C6 at a record with CC enabled and a parent set. -/
theorem get_parent_email_cc_iff_witness :
    (fetchedPrefs "e@x.edu" [("e@x.edu", prefsParent)]).parent_email ≠
      some "" ∧
    (get_parent_email "e@x.edu" [("e@x.edu", prefsParent)]).1 =
      (if (fetchedPrefs "e@x.edu"
            [("e@x.edu", prefsParent)]).parent_cc_enabled = true then
        (fetchedPrefs "e@x.edu" [("e@x.edu", prefsParent)]).parent_email
      else none) :=
  ⟨by decide,
   get_parent_email_cc_iff [("e@x.edu", prefsParent)] "e@x.edu" (by decide)⟩

/-- Claim C7: the batch-announcement endpoint rejects an empty recipient
list with HTTP 400 and a descriptive reason, before any interaction with
the task-queue channel (no submission is recorded), whatever the channel's
availability. -/
theorem batch_announcement_rejects_empty (channelOk : Bool)
    (subject template_name : String)
    (context : List (String × Option String)) :
    send_batch_announcement channelOk [] subject template_name context =
      (.httpError 400 "No recipients specified", []) := rfl

/-- Claim C8: with the transport unconfigured, `send_email` reports failure
without contacting the renderer or the transport (and, being a total
function into `Bool × List MailAction`, without raising); and in general it
reports success exactly when the service is enabled and both rendering and
delivery succeed — every rendering or transport exception is converted to a
failure outcome instead of propagating. -/
theorem send_email_failure_isolation (env : MailEnv)
    (recipients : List String) (subject template_name : String)
    (context : List (String × Option String)) (cc : Option (List String)) :
    send_email { env with enabled := false } recipients subject template_name
      context cc = (false, []) ∧
    ((send_email env recipients subject template_name context cc).1 = true ↔
      env.enabled = true ∧
      ∃ html,
        env.render template_name (ctxSet context "subject" (some subject)) =
          .ok html ∧
        env.deliver recipients cc subject html = .ok ()) := by
  constructor
  · simp [send_email]
  · cases he : env.enabled
    · simp [send_email, he]
    · cases hr : env.render template_name
        (ctxSet context "subject" (some subject)) with
      | error e => simp [send_email, he, hr]
      | ok html =>
        cases hd : env.deliver recipients cc subject html with
        | error e => simp [send_email, he, hr, hd]
        | ok u => cases u; simp [send_email, he, hr, hd]

/-- Claim C9: deleting an identity's preferences succeeds exactly when a
record was present, removes the record, and a subsequent read of that
identity returns the all-defaults record. -/
theorem delete_then_read_defaults (st : Store) (email : String) :
    (delete_user_preferences email st).1 = (lookupPref st email).isSome ∧
    lookupPref (delete_user_preferences email st).2 email = none ∧
    (get_user_preferences email (delete_user_preferences email st).2).1 =
      defaultPrefs email := by
  by_cases h : (lookupPref st email).isSome = true
  · simp [delete_user_preferences, h, get_user_preferences,
      lookupPref_erasePref_self]
  · have hn : lookupPref st email = none := by
      cases hl : lookupPref st email with
      | none => rfl
      | some p => rw [hl] at h; simp at h
    simp [delete_user_preferences, hn, get_user_preferences]

/-- Claim C10: every read operation lazily inserts the defaults record for
an unseen identity (so the store and `get_all_preferences` afterwards
contain the identity), `should_send_email` and `get_parent_email` have the
same store effect as the underlying `get_user_preferences`, and on an
identity already present the read leaves the store unchanged. -/
theorem read_ops_frame_effects (st : Store) (email : String)
    (cat : NotificationCategory) :
    ((get_user_preferences email st).2 =
      if (lookupPref st email).isSome then st
      else insertPref st email (defaultPrefs email)) ∧
    (should_send_email email cat st).2 = (get_user_preferences email st).2 ∧
    (get_parent_email email st).2 = (get_user_preferences email st).2 ∧
    lookupPref (get_user_preferences email st).2 email =
      some (fetchedPrefs email st) ∧
    email ∈ (get_all_preferences ((get_user_preferences email st).2)).map
      Prod.fst := by
  refine ⟨?_, should_send_email_store email cat st,
    get_parent_email_store email st, lookupPref_get_self email st, ?_⟩
  · cases hl : lookupPref st email <;> simp [get_user_preferences, hl]
  · exact mem_keys_of_lookupPref _ _ _ (lookupPref_get_self email st)
